import Mathlib

/-!
Shallow embedding of the meeting lifecycle core of the `vemeego` backend
(`backend/app/services/meeting_service.py` and the meetings router in
`backend/app/routers/meetings.py`).

The external relational store is modelled as an explicit `DB` record holding
the three row tables the service touches (`meetings`, `meeting_participants`,
`meeting_chat_messages`), plus the set of media rooms the service asked the
external media provider to close, a logical clock `now` standing for
`datetime.utcnow()`, and a fresh-id counter standing for store-generated row
ids.  Store filters (`.eq`), updates and deletes are modelled row by row on
those lists; a filter comparing a column against a missing (null) value
matches no row, following SQL null-equality semantics.  Operations that can
raise return `Except Err` paired with the post-state; an exception raised
before a write leaves the state component unchanged, exactly as in the code.
-/

namespace Vemeego

/-- Meeting type enumeration (`instant`, `scheduled`, `webinar`). -/
inductive MeetingType where
  | instant
  | scheduled
  | webinar
  deriving DecidableEq, Repr

/-- Meeting status enumeration. -/
inductive MeetingStatus where
  | scheduled
  | active
  | completed
  | cancelled
  | not_answered
  deriving DecidableEq, Repr

/-- Participant status enumeration. -/
inductive PStatus where
  | invited
  | accepted
  | declined
  | joined
  | missed
  deriving DecidableEq, Repr

/-- Participant role enumeration. -/
inductive Role where
  | host
  | assistant
  | attendee
  deriving DecidableEq, Repr

/-- A row of the `meetings` table. -/
structure Meeting where
  id : Nat
  title : String
  type : MeetingType
  status : MeetingStatus
  is_open : Bool
  host_id : Nat
  room_name : String
  start_time : Nat
  end_time : Option Nat
  deriving DecidableEq, Repr

/-- A row of the `meeting_participants` table.  `user_id = none` is an
external invitee identified by email. -/
structure Participant where
  id : Nat
  meeting_id : Nat
  user_id : Option Nat
  email : Option String
  name : Option String
  role : Role
  status : PStatus
  joined_at : Option Nat
  left_at : Option Nat
  deriving DecidableEq, Repr

/-- A row of the `meeting_chat_messages` table. -/
structure ChatMessage where
  id : Nat
  meeting_id : Nat
  sender_id : Nat
  sender_name : String
  content : String
  deriving DecidableEq, Repr

/-- The visible state of the external store plus the external media rooms the
service has asked to close. -/
structure DB where
  meetings : List Meeting
  participants : List Participant
  messages : List ChatMessage
  closedRooms : List String
  now : Nat
  nextId : Nat
  deriving DecidableEq, Repr

/-- The error taxonomy raised by the service (`NotFoundError`,
`AuthorizationError`, `BadRequestError`). -/
inductive Err where
  | NotFound (msg : String)
  | Authorization (msg : String)
  | BadRequest (msg : String)
  deriving DecidableEq, Repr

/-- `true` exactly on `AuthorizationError` (the Forbidden class). -/
def Err.isAuthorization : Err → Bool
  | .Authorization _ => true
  | _ => false

/-- `table("meetings").select("*").eq("id", mid)`, first row. -/
def findMeeting (db : DB) (mid : Nat) : Option Meeting :=
  db.meetings.find? (fun m => m.id == mid)

/-- `table("meeting_participants").select("*").eq("meeting_id", mid)`. -/
def participantsOf (db : DB) (mid : Nat) : List Participant :=
  db.participants.filter (fun p => p.meeting_id == mid)

/-- `.eq("meeting_id", mid).eq("user_id", uid)`, first row.  When `uid` is
`none` the comparison is against a null value and matches no row (SQL
null-equality semantics of the external store). -/
def findParticipantByUser (db : DB) (mid : Nat) (uid : Option Nat) : Option Participant :=
  db.participants.find? (fun p =>
    p.meeting_id == mid &&
      match uid with
      | some u => p.user_id == some u
      | none => false)

/-- `.eq("id", pid).eq("meeting_id", mid)`, first row. -/
def findParticipantById (db : DB) (pid mid : Nat) : Option Participant :=
  db.participants.find? (fun p => p.id == pid && p.meeting_id == mid)

/-- `table("meeting_participants").update(...).eq("id", pid)`. -/
def updateParticipantRow (db : DB) (pid : Nat) (f : Participant → Participant) : DB :=
  { db with participants := db.participants.map (fun p => if p.id == pid then f p else p) }

/-- `table("meetings").update(...).eq("id", mid)`. -/
def updateMeetingRow (db : DB) (mid : Nat) (f : Meeting → Meeting) : DB :=
  { db with meetings := db.meetings.map (fun m => if m.id == mid then f m else m) }

/-- `table("meeting_chat_messages").delete().eq("meeting_id", mid)`. -/
def deleteChatMessages (db : DB) (mid : Nat) : DB :=
  { db with messages := db.messages.filter (fun c => c.meeting_id != mid) }

/-- `livekit_api.delete_room(DeleteRoomRequest(room=...))`, recorded for
observation. -/
def closeRoom (db : DB) (room : String) : DB :=
  { db with closedRooms := room :: db.closedRooms }

/-- The active-participant predicate of `_check_and_end_meeting_if_needed`:
status not `declined`, not `missed`, and `left_at` null. -/
def isActive (p : Participant) : Bool :=
  p.status != .declined && p.status != .missed && p.left_at.isNone

/-- `active_participants` of `_check_and_end_meeting_if_needed`. -/
def activeParticipants (db : DB) (mid : Nat) : List Participant :=
  (participantsOf db mid).filter isActive

/-- `total_participants` of `_check_and_end_meeting_if_needed` and
`user_participants` of `mark_call_as_missed`: rows with a real user
reference. -/
def userParticipantCount (db : DB) (mid : Nat) : Nat :=
  ((participantsOf db mid).filter (fun p => p.user_id.isSome)).length

/-- `MeetingService.get_meeting`: fetch the meeting, then the access check
(open meeting, host, or an existing participant row for the caller). -/
def get_meeting (db : DB) (mid uid : Nat) : Except Err Meeting :=
  match findMeeting db mid with
  | none => .error (.NotFound "Meeting not found")
  | some meeting =>
    if !meeting.is_open && meeting.host_id != uid then
      match findParticipantByUser db mid (some uid) with
      | none => .error (.Authorization "You are not invited to this meeting")
      | some _ => .ok meeting
    else
      .ok meeting

/-- The video grants placed in the LiveKit access token. -/
structure VideoGrants where
  room_join : Bool
  room : String
  can_publish : Bool
  can_subscribe : Bool
  can_publish_data : Bool
  deriving DecidableEq, Repr

/-- The data bound into a LiveKit access token by `generate_token`. -/
structure AccessTokenData where
  identity : Nat
  name : String
  grants : VideoGrants
  deriving DecidableEq, Repr

/-- Role resolution of `generate_token`: the participant row role when one
exists, else `attendee` for open meetings, else denied (`none`). -/
def resolvedRole (db : DB) (mid uid : Nat) (meeting : Meeting) : Option Role :=
  match findParticipantByUser db mid (some uid) with
  | some p => some p.role
  | none => if meeting.is_open then some .attendee else none

/-- `MeetingService.generate_token`: access check via `get_meeting`, role
resolution, then the grant computation (`can_publish` is cleared exactly for
webinar attendees). -/
def generate_token (db : DB) (mid uid : Nat) (user_name : String) :
    Except Err AccessTokenData :=
  match get_meeting db mid uid with
  | .error e => .error e
  | .ok meeting =>
    match resolvedRole db mid uid meeting with
    | none => .error (.Authorization "You are not a participant in this meeting")
    | some role =>
      let can_publish := if meeting.type == .webinar && role == .attendee then false else true
      .ok { identity := uid, name := user_name,
            grants := { room_join := true, room := meeting.room_name,
                        can_publish := can_publish, can_subscribe := true,
                        can_publish_data := true } }

/-- The request shape of one invitee (`participants` item of the create
request, or the body of the invite endpoint). -/
structure ParticipantSpec where
  user_id : Option Nat
  email : Option String
  name : Option String
  role : Option Role
  deriving DecidableEq, Repr

/-- Builds the `p_data` row inserted for an invitee: `user_id` wins over
`email`; the role defaults to `attendee`; the status is always `invited`. -/
def insertInvitee (mid nid : Nat) (pd : ParticipantSpec) : Participant :=
  { id := nid, meeting_id := mid,
    user_id := pd.user_id,
    email := if pd.user_id.isSome then none else pd.email,
    name := if pd.user_id.isSome then none
            else if pd.email.isSome then pd.name else none,
    role := pd.role.getD .attendee,
    status := .invited, joined_at := none, left_at := none }

/-- Assigns fresh row ids to a batch of invitee rows, in order. -/
def assignIds (nid mid : Nat) : List ParticipantSpec → List Participant
  | [] => []
  | pd :: rest => insertInvitee mid nid pd :: assignIds (nid + 1) mid rest

/-- Which of the three non-transactional inserts of `create_meeting` succeed
in a given run (each is a separate store call wrapped in its own
`try`/`except`). -/
structure InsertOutcomes where
  meetingInsertOk : Bool
  hostInsertOk : Bool
  inviteesInsertOk : Bool
  deriving DecidableEq, Repr

/-- `MeetingService.create_meeting`: insert the meeting row; then try to
insert the host participant row (`role=host`, `status=accepted`), swallowing
failure; then try to insert the invitee rows, swallowing failure; report
success with the meeting and whatever participant rows were created. -/
def create_meeting (db : DB) (oc : InsertOutcomes) (title : String) (host_id : Nat)
    (start_time : Nat) (type : MeetingType) (is_open : Bool)
    (participants : List ParticipantSpec) :
    Except Err (Meeting × List Participant) × DB :=
  if !oc.meetingInsertOk then
    (.error (.BadRequest "Failed to create meeting"), db)
  else
    let mid := db.nextId
    let meeting : Meeting :=
      { id := mid, title := title, type := type, status := .scheduled,
        is_open := is_open, host_id := host_id,
        room_name := "room_" ++ toString db.now,
        start_time := start_time, end_time := none }
    let db1 : DB :=
      { db with meetings := db.meetings ++ [meeting], nextId := db.nextId + 1 }
    let step2 : Option Participant × DB :=
      if oc.hostInsertOk then
        let hp : Participant :=
          { id := db1.nextId, meeting_id := mid, user_id := some host_id,
            email := none, name := none, role := .host, status := .accepted,
            joined_at := none, left_at := none }
        (some hp,
          { db1 with participants := db1.participants ++ [hp], nextId := db1.nextId + 1 })
      else (none, db1)
    let db2 := step2.2
    let step3 : List Participant × DB :=
      if participants.isEmpty || !oc.inviteesInsertOk then ([], db2)
      else
        let rows := assignIds db2.nextId mid participants
        (rows,
          { db2 with participants := db2.participants ++ rows,
                     nextId := db2.nextId + participants.length })
    let allParts := (match step2.1 with | some h => [h] | none => []) ++ step3.1
    (.ok (meeting, allParts), step3.2)

/-- `MeetingService.invite_participant`: access check, host check, identifier
check, then the duplicate check filtered on `("meeting_id", mid)` and
`("user_id", pd.user_id)`; an existing row is returned unchanged, otherwise a
new `invited` row is inserted. -/
def invite_participant (db : DB) (mid host_id : Nat) (pd : ParticipantSpec) :
    Except Err Participant × DB :=
  match get_meeting db mid host_id with
  | .error e => (.error e, db)
  | .ok meeting =>
    if meeting.host_id != host_id then
      (.error (.Authorization "Only the host can invite participants"), db)
    else if pd.user_id.isNone && pd.email.isNone then
      (.error (.BadRequest "User ID or Email required"), db)
    else
      match findParticipantByUser db mid pd.user_id with
      | some existing => (.ok existing, db)
      | none =>
        let row := insertInvitee mid db.nextId pd
        (.ok row,
          { db with participants := db.participants ++ [row], nextId := db.nextId + 1 })

/-- `MeetingService.send_chat_message`: access check, then insert the
message row. -/
def send_chat_message (db : DB) (mid uid : Nat) (user_name content : String) :
    Except Err ChatMessage × DB :=
  match get_meeting db mid uid with
  | .error e => (.error e, db)
  | .ok _ =>
    let msg : ChatMessage :=
      { id := db.nextId, meeting_id := mid, sender_id := uid,
        sender_name := user_name, content := content }
    (.ok msg, { db with messages := db.messages ++ [msg], nextId := db.nextId + 1 })

/-- `MeetingService.get_chat_messages`: access check, then the message rows
of the meeting. -/
def get_chat_messages (db : DB) (mid uid : Nat) : Except Err (List ChatMessage) :=
  match get_meeting db mid uid with
  | .error e => .error e
  | .ok _ => .ok (db.messages.filter (fun c => c.meeting_id == mid))

/-- `MeetingService.get_participant_by_user`. -/
def get_participant_by_user (db : DB) (mid uid : Nat) : Option Participant :=
  findParticipantByUser db mid (some uid)

/-- The dual-mode participant reference resolution of
`update_participant_status`: first as a participant-row id, then as a user id
(the code performs the user-id lookup twice; both lookups are the same
query, so they are merged here). -/
def resolveParticipantRef (db : DB) (mid pref : Nat) : Option Participant :=
  match findParticipantById db pref mid with
  | some p => some p
  | none => get_participant_by_user db mid pref

/-- `MeetingService.update_participant_status`: resolve the reference,
authorize (owner or host, via `get_meeting` first), validate the new status,
then update; `accepted` also sets `joined_at=now`.  No guard on the current
status is applied. -/
def update_participant_status (db : DB) (mid pref uid : Nat) (new_status : PStatus) :
    Except Err Participant × DB :=
  match resolveParticipantRef db mid pref with
  | none => (.error (.NotFound "Participant not found"), db)
  | some participant =>
    match get_meeting db mid uid with
    | .error e => (.error e, db)
    | .ok meeting =>
      let is_participant_owner := participant.user_id == some uid
      let is_meeting_host := meeting.host_id == uid
      if !(is_participant_owner || is_meeting_host) then
        (.error (.Authorization
          "You can only update your own participant status or if you are the meeting host"), db)
      else if new_status != .accepted && new_status != .declined then
        (.error (.BadRequest "Status must be accepted or declined"), db)
      else
        let upd : Participant → Participant := fun p =>
          if new_status == .accepted then
            { p with status := new_status, joined_at := some db.now }
          else
            { p with status := new_status }
        (.ok (upd participant), updateParticipantRow db participant.id upd)

/-- `MeetingService.end_meeting`: no-op returning the current row when the
status is `completed` or `cancelled`; otherwise close the media room
(best-effort), purge the chat, and set `status=completed`,
`end_time=now`. -/
def end_meeting (db : DB) (mid : Nat) : Except Err Meeting × DB :=
  match findMeeting db mid with
  | none => (.error (.NotFound "Meeting not found"), db)
  | some meeting =>
    if meeting.status == .completed || meeting.status == .cancelled then
      (.ok meeting, db)
    else
      let db1 := if meeting.room_name != "" then closeRoom db meeting.room_name else db
      let db2 := deleteChatMessages db1 mid
      let upd : Meeting → Meeting := fun m =>
        { m with status := .completed, end_time := some db.now }
      (.ok (upd meeting), updateMeetingRow db2 mid upd)

/-- `MeetingService._check_and_end_meeting_if_needed`: abort when the meeting
is missing or its status is `completed`/`cancelled`; otherwise decide
termination from the active set and (for instant meetings) the
user-participant count, and call `end_meeting` when the decision is to
end. -/
def check_and_end_meeting_if_needed (db : DB) (mid : Nat) : DB :=
  match findMeeting db mid with
  | none => db
  | some meeting =>
    if meeting.status == .completed || meeting.status == .cancelled then db
    else
      let active := activeParticipants db mid
      let total := userParticipantCount db mid
      let should_end : Bool :=
        if meeting.type == .instant then
          (total == 2 && decide (active.length ≤ 1)) || active.length == 0
        else
          active.length == 0
      if should_end then (end_meeting db mid).2 else db

/-- `MeetingService.leave_meeting`: set `left_at=now` and `status=declined`
on the caller participant row, then run the auto-termination evaluator. -/
def leave_meeting (db : DB) (mid uid : Nat) : Except Err Participant × DB :=
  match get_participant_by_user db mid uid with
  | none => (.error (.NotFound "Participant not found"), db)
  | some participant =>
    let upd : Participant → Participant := fun p =>
      { p with left_at := some db.now, status := .declined }
    let db1 := updateParticipantRow db participant.id upd
    (.ok (upd participant), check_and_end_meeting_if_needed db1 mid)

/-- `MeetingService._mark_meeting_as_not_answered`: close the media room
(best-effort), purge the chat, and set `status=not_answered`,
`end_time=now`. -/
def mark_meeting_as_not_answered (db : DB) (mid : Nat) (meeting : Meeting) : DB :=
  let db1 := if meeting.room_name != "" then closeRoom db meeting.room_name else db
  let db2 := deleteChatMessages db1 mid
  updateMeetingRow db2 mid (fun m => { m with status := .not_answered, end_time := some db.now })

/-- `MeetingService.mark_call_as_missed`: fetch the meeting and the
participant row; a participant no longer `invited` is returned unchanged;
otherwise the row is set to `missed` and, for a non-terminal instant meeting
with exactly 2 user-participants of which one is `missed`, the meeting is
marked `not_answered`. -/
def mark_call_as_missed (db : DB) (mid pid : Nat) : Except Err Participant × DB :=
  match findMeeting db mid with
  | none => (.error (.NotFound "Meeting not found"), db)
  | some meeting =>
    match findParticipantById db pid mid with
    | none => (.error (.NotFound "Participant not found"), db)
    | some participant =>
      if participant.status != .invited then
        (.ok participant, db)
      else
        let upd : Participant → Participant := fun p => { p with status := .missed }
        let db1 := updateParticipantRow db pid upd
        let db2 :=
          if meeting.type == .instant && meeting.status != .completed &&
             meeting.status != .cancelled && meeting.status != .not_answered then
            if userParticipantCount db1 mid == 2 then
              if (participantsOf db1 mid).any (fun p => p.status == .missed) then
                mark_meeting_as_not_answered db1 mid meeting
              else db1
            else db1
          else db1
        (.ok (upd participant), db2)

/-- The missed endpoint of the meetings router: access check via
`get_meeting`, participant lookup by row id, participant-or-host check, then
the service call. -/
def mark_call_as_missed_endpoint (db : DB) (mid pid uid : Nat) :
    Except Err Participant × DB :=
  match get_meeting db mid uid with
  | .error e => (.error e, db)
  | .ok meeting =>
    match findParticipantById db pid mid with
    | none => (.error (.NotFound "Participant not found"), db)
    | some participant =>
      let is_participant := participant.user_id == some uid
      let is_host := meeting.host_id == uid
      if !(is_participant || is_host) then
        (.error (.Authorization
          "You can only mark your own calls as missed or if you are the host"), db)
      else
        mark_call_as_missed db mid pid

/-! ### General list helper lemmas -/

/-- Updating the rows matched by a predicate with a function that keeps the
predicate true moves `find?` to the updated row. -/
theorem find?_update {α : Type _} (p : α → Bool) (f : α → α)
    (hf : ∀ x, p x = true → p (f x) = true) :
    ∀ (l : List α) (a : α), l.find? p = some a →
      (l.map (fun x => if p x then f x else x)).find? p = some (f a) := by
  intro l
  induction l with
  | nil => intro a h; simp [List.find?] at h
  | cons x t ih =>
    intro a h
    by_cases hx : p x = true
    · rw [List.find?_cons_of_pos _ hx] at h
      injection h with h
      subst h
      simp only [List.map_cons, if_pos hx]
      exact List.find?_cons_of_pos _ (hf x hx)
    · rw [List.find?_cons_of_neg _ hx] at h
      simp only [List.map_cons, if_neg hx]
      rw [List.find?_cons_of_neg _ hx]
      exact ih a h

/-- A membership with a true predicate forces `find?` to return some row
satisfying the predicate. -/
theorem exists_find?_eq_some {α : Type _} {p : α → Bool} :
    ∀ {l : List α} {a : α}, a ∈ l → p a = true →
      ∃ b, l.find? p = some b ∧ p b = true := by
  intro l
  induction l with
  | nil => intro a ha; cases ha
  | cons x t ih =>
    intro a ha hpa
    by_cases hx : p x = true
    · exact ⟨x, List.find?_cons_of_pos _ hx, hx⟩
    · rcases List.mem_cons.mp ha with rfl | ht
      · exact absurd hpa hx
      · obtain ⟨b, hb, hpb⟩ := ih ht hpa
        exact ⟨b, by rw [List.find?_cons_of_neg _ hx]; exact hb, hpb⟩

/-- A gated row update that does not change a filter predicate keeps the
filtered length. -/
theorem length_filter_update {α : Type _} (q : α → Bool) (g : α → α) (gate : α → Bool)
    (h : ∀ x, q (g x) = q x) :
    ∀ l : List α,
      ((l.map (fun x => if gate x then g x else x)).filter q).length
        = (l.filter q).length := by
  intro l
  induction l with
  | nil => rfl
  | cons a t ih =>
    by_cases hg : gate a = true
    · simp only [List.map_cons, if_pos hg, List.filter_cons, h a]
      cases hq : q a <;> simp [ih]
    · simp only [List.map_cons, if_neg hg, List.filter_cons]
      cases hq : q a <;> simp [ih]

/-- Filtering for a value just removed by the complementary filter yields the
empty list. -/
theorem filter_bne_filter_beq_nil {α β : Type _} [BEq β] (proj : α → β) (v : β) :
    ∀ l : List α,
      ((l.filter (fun x => proj x != v)).filter (fun x => proj x == v)) = [] := by
  intro l
  induction l with
  | nil => rfl
  | cons a t ih =>
    cases ha : (proj a == v) with
    | true =>
      have hbne : (proj a != v) = false := by simp [bne, ha]
      simp [List.filter_cons, hbne, ih]
    | false =>
      have hbne : (proj a != v) = true := by simp [bne, ha]
      simp [List.filter_cons, hbne, ha, ih]

/-! ### Lemmas about `get_meeting` -/

/-- A successful `get_meeting` returns exactly the stored meeting row. -/
theorem get_meeting_ok (db : DB) (mid uid : Nat) (m : Meeting)
    (h : get_meeting db mid uid = .ok m) : findMeeting db mid = some m := by
  unfold get_meeting at h
  split at h
  · cases h
  · rename_i meeting heq
    split at h
    · split at h
      · cases h
      · injection h with h
        rw [heq, h]
    · injection h with h
      rw [heq, h]

/-- `get_meeting` denies a non-host, non-participant caller on a non-open
meeting with an `AuthorizationError`. -/
theorem get_meeting_denied (db : DB) (mid uid : Nat) (m : Meeting)
    (hm : findMeeting db mid = some m) (hopen : m.is_open = false)
    (hhost : m.host_id ≠ uid)
    (hpart : findParticipantByUser db mid (some uid) = none) :
    get_meeting db mid uid = .error (.Authorization "You are not invited to this meeting") := by
  unfold get_meeting
  have hc : (!m.is_open && m.host_id != uid) = true := by
    simp [hopen, bne_iff_ne, hhost]
  simp only [hm, if_pos hc, hpart]

/-! ### C1 -/

/-- A meeting stored with the terminal status `not_answered`. -/
def notAnsweredMeeting : Meeting :=
  { id := 1, title := "call", type := .instant, status := .not_answered,
    is_open := false, host_id := 1, room_name := "room_1", start_time := 0,
    end_time := some 5 }

/-- A store holding only `notAnsweredMeeting`. -/
def notAnsweredDB : DB :=
  { meetings := [notAnsweredMeeting], participants := [], messages := [],
    closedRooms := [], now := 9, nextId := 10 }

/-- C1: counterexample — `end_meeting` on a meeting whose status is the
terminal value `not_answered` is not a no-op: it returns and stores the
record with status `completed`, so the status transitions out of a terminal
value. -/
theorem end_meeting_changes_not_answered :
    notAnsweredMeeting.status = .not_answered ∧
    (end_meeting notAnsweredDB 1).1 =
      .ok { notAnsweredMeeting with status := .completed, end_time := some 9 } ∧
    (findMeeting (end_meeting notAnsweredDB 1).2 1).map Meeting.status =
      some .completed :=
  ⟨rfl, rfl, rfl⟩

/-- C1 (amended): for a meeting whose status is `completed` or `cancelled`,
`end_meeting` is a no-op returning the current record (so ending twice
returns the same record both times) and the auto-termination evaluator
leaves the store unchanged; a `not_answered` meeting is not guarded (see the
counterexample). -/
theorem end_meeting_noop_on_completed_or_cancelled (db : DB) (mid : Nat) (m : Meeting)
    (hm : findMeeting db mid = some m)
    (hterm : m.status = .completed ∨ m.status = .cancelled) :
    end_meeting db mid = (.ok m, db) ∧ check_and_end_meeting_if_needed db mid = db := by
  have hg : (m.status == .completed || m.status == .cancelled) = true := by
    rcases hterm with h | h <;> simp [h]
  constructor
  · unfold end_meeting
    simp only [hm, if_pos hg]
  · unfold check_and_end_meeting_if_needed
    simp only [hm, if_pos hg]

/-- A meeting stored with status `completed`. -/
def completedMeeting : Meeting :=
  { id := 2, title := "done", type := .scheduled, status := .completed,
    is_open := false, host_id := 1, room_name := "room_2", start_time := 0,
    end_time := some 4 }

/-- A store holding only `completedMeeting`. -/
def completedDB : DB :=
  { meetings := [completedMeeting], participants := [], messages := [],
    closedRooms := [], now := 9, nextId := 10 }

/-- C1 witness: the amended no-op theorem applied at a concrete completed
meeting. -/
theorem end_meeting_noop_witness :
    end_meeting completedDB 2 = (.ok completedMeeting, completedDB) ∧
    check_and_end_meeting_if_needed completedDB 2 = completedDB :=
  end_meeting_noop_on_completed_or_cancelled completedDB 2 completedMeeting rfl (Or.inl rfl)

/-! ### C4 and C5 -/

/-- `mark_call_as_missed` on a participant no longer `invited` returns the
current row and leaves the store untouched. -/
theorem mark_missed_noop_of_not_invited (db : DB) (mid pid : Nat) (m : Meeting)
    (p : Participant)
    (hm : findMeeting db mid = some m)
    (hp : findParticipantById db pid mid = some p)
    (hs : p.status ≠ .invited) :
    mark_call_as_missed db mid pid = (.ok p, db) := by
  unfold mark_call_as_missed
  have hb : (p.status != .invited) = true := by simp [bne_iff_ne, hs]
  simp only [hm, hp, if_pos hb]

/-- C4: for every participant whose status is not `invited`, the mark-missed
operation is a no-op: it returns the current participant record unchanged
and performs no write. -/
theorem mark_missed_noop_when_not_invited (db : DB) (mid pid : Nat) (m : Meeting)
    (p : Participant)
    (hm : findMeeting db mid = some m)
    (hp : findParticipantById db pid mid = some p)
    (hs : p.status ≠ .invited) :
    mark_call_as_missed db mid pid = (.ok p, db) :=
  mark_missed_noop_of_not_invited db mid pid m p hm hp hs

/-- An accepted participant row in an instant call. -/
def acceptedRow : Participant :=
  { id := 4, meeting_id := 3, user_id := some 2, email := none, name := none,
    role := .attendee, status := .accepted, joined_at := some 1, left_at := none }

/-- A store with an instant call whose invitee already accepted. -/
def acceptedCallDB : DB :=
  { meetings := [{ id := 3, title := "call", type := .instant, status := .active,
                   is_open := false, host_id := 1, room_name := "room_3",
                   start_time := 0, end_time := none }],
    participants := [acceptedRow], messages := [], closedRooms := [],
    now := 6, nextId := 20 }

/-- C4 witness: marking an already-accepted participant missed at a concrete
store returns the accepted row unchanged. -/
theorem mark_missed_noop_witness :
    mark_call_as_missed acceptedCallDB 3 4 = (.ok acceptedRow, acceptedCallDB) :=
  mark_missed_noop_when_not_invited acceptedCallDB 3 4
    { id := 3, title := "call", type := .instant, status := .active,
      is_open := false, host_id := 1, room_name := "room_3",
      start_time := 0, end_time := none }
    acceptedRow rfl rfl (by decide)

/-- A declined participant row. -/
def declinedRow : Participant :=
  { id := 21, meeting_id := 20, user_id := some 2, email := none, name := none,
    role := .attendee, status := .declined, joined_at := none, left_at := none }

/-- A store with a meeting whose invitee has declined. -/
def declinedDB : DB :=
  { meetings := [{ id := 20, title := "m", type := .scheduled, status := .active,
                   is_open := false, host_id := 1, room_name := "room_20",
                   start_time := 0, end_time := none }],
    participants := [declinedRow], messages := [], closedRooms := [],
    now := 7, nextId := 30 }

/-- C5: counterexample — `update_participant_status` applies no guard on the
current participant status: a `declined` participant is overwritten to
`accepted` (with `joined_at` set), so `declined` is not terminal under the
ledger operations. -/
theorem update_status_overwrites_declined :
    declinedRow.status = .declined ∧
    (update_participant_status declinedDB 20 21 2 .accepted).1 =
      .ok { declinedRow with status := .accepted, joined_at := some 7 } :=
  ⟨rfl, rfl⟩

/-- C5 (amended): only `mark_call_as_missed` treats `declined` and `missed`
as terminal — it returns such a participant unchanged and performs no write;
`update_participant_status` and `leave_meeting` apply no current-status
guard and can overwrite a `declined` or `missed` status (see the
counterexample). -/
theorem mark_missed_preserves_declined_and_missed (db : DB) (mid pid : Nat)
    (m : Meeting) (p : Participant)
    (hm : findMeeting db mid = some m)
    (hp : findParticipantById db pid mid = some p)
    (hs : p.status = .declined ∨ p.status = .missed) :
    mark_call_as_missed db mid pid = (.ok p, db) := by
  apply mark_missed_noop_of_not_invited db mid pid m p hm hp
  rcases hs with h | h <;> simp [h]

/-- A missed participant row. -/
def missedRow : Participant :=
  { id := 23, meeting_id := 22, user_id := some 2, email := none, name := none,
    role := .attendee, status := .missed, joined_at := none, left_at := none }

/-- A store with a meeting whose invitee was marked missed. -/
def missedDB : DB :=
  { meetings := [{ id := 22, title := "m", type := .instant, status := .active,
                   is_open := false, host_id := 1, room_name := "room_22",
                   start_time := 0, end_time := none }],
    participants := [missedRow], messages := [], closedRooms := [],
    now := 7, nextId := 30 }

/-- C5 witness: the amended preservation theorem applied at a concrete
missed participant. -/
theorem mark_missed_preserves_witness :
    mark_call_as_missed missedDB 22 23 = (.ok missedRow, missedDB) :=
  mark_missed_preserves_declined_and_missed missedDB 22 23
    { id := 22, title := "m", type := .instant, status := .active,
      is_open := false, host_id := 1, room_name := "room_22",
      start_time := 0, end_time := none }
    missedRow rfl rfl (Or.inr rfl)

/-! ### C7 and C10 -/

/-- `get_meeting` called by the host of an existing meeting succeeds. -/
theorem get_meeting_host (db : DB) (mid hid : Nat) (m : Meeting)
    (hm : findMeeting db mid = some m) (hhost : m.host_id = hid) :
    get_meeting db mid hid = .ok m := by
  have hc : (!m.is_open && m.host_id != hid) = false := by simp [hhost]
  unfold get_meeting
  simp only [hm]
  rw [hc]
  simp

/-- C7: inviting a user who already has a participant row in the meeting
returns an existing row for that user unchanged and leaves the store
untouched (no new row is inserted). -/
theorem invite_existing_user_idempotent (db : DB) (mid hid u : Nat) (m : Meeting)
    (q : Participant) (pd : ParticipantSpec)
    (hm : findMeeting db mid = some m) (hhost : m.host_id = hid)
    (hpd : pd.user_id = some u)
    (hq : q ∈ db.participants) (hqm : q.meeting_id = mid) (hqu : q.user_id = some u) :
    ∃ p, invite_participant db mid hid pd = (.ok p, db) ∧
      p.meeting_id = mid ∧ p.user_id = some u := by
  have hpred : (fun (p : Participant) => p.meeting_id == mid && p.user_id == some u) q
      = true := by
    simp [hqm, hqu]
  obtain ⟨b, hb, hpb⟩ :=
    @exists_find?_eq_some Participant
      (fun p => p.meeting_id == mid && p.user_id == some u) db.participants q hq hpred
  have hfind : findParticipantByUser db mid (some u) = some b := hb
  simp only [Bool.and_eq_true, beq_iff_eq] at hpb
  have h1 : (m.host_id != hid) = false := by simp [hhost]
  have h2 : (pd.user_id.isNone && pd.email.isNone) = false := by simp [hpd]
  refine ⟨b, ?_, hpb.1, hpb.2⟩
  unfold invite_participant
  simp only [get_meeting_host db mid hid m hm hhost, h1, h2, hpd, hfind]
  simp

/-- C10: an invite whose spec carries an email but no user id always inserts
a fresh `invited` row, whatever rows (including same-email rows) already
exist: the duplicate check filters only on `user_id`, and a null `user_id`
comparand matches no row. -/
theorem invite_by_email_always_inserts (db : DB) (mid hid : Nat) (m : Meeting)
    (pd : ParticipantSpec) (e : String)
    (hm : findMeeting db mid = some m) (hhost : m.host_id = hid)
    (hu : pd.user_id = none) (he : pd.email = some e) :
    invite_participant db mid hid pd =
      (.ok (insertInvitee mid db.nextId pd),
        { db with participants := db.participants ++ [insertInvitee mid db.nextId pd],
                  nextId := db.nextId + 1 }) := by
  have hnone : findParticipantByUser db mid none = none := by
    unfold findParticipantByUser
    simp [List.find?_eq_none]
  have h1 : (m.host_id != hid) = false := by simp [hhost]
  have h2 : (pd.user_id.isNone && pd.email.isNone) = false := by simp [hu, he]
  unfold invite_participant
  simp only [get_meeting_host db mid hid m hm hhost, h1, h2, hu, hnone]
  simp [he]

/-- Meeting used by the C7 witness. -/
def inviteMeeting : Meeting :=
  { id := 60, title := "m", type := .scheduled, status := .scheduled,
    is_open := false, host_id := 1, room_name := "room_60", start_time := 0,
    end_time := none }

/-- Existing invited row for user 2 used by the C7 witness. -/
def invitedUserRow : Participant :=
  { id := 61, meeting_id := 60, user_id := some 2, email := none, name := none,
    role := .attendee, status := .invited, joined_at := none, left_at := none }

/-- Store used by the C7 witness. -/
def inviteDB : DB :=
  { meetings := [inviteMeeting], participants := [invitedUserRow], messages := [],
    closedRooms := [], now := 3, nextId := 70 }

/-- C7 witness: re-inviting user 2 at a concrete store returns an existing
row for user 2 and leaves the store unchanged. -/
theorem invite_existing_user_witness :
    ∃ p, invite_participant inviteDB 60 1
        { user_id := some 2, email := none, name := none, role := none } =
        (.ok p, inviteDB) ∧ p.meeting_id = 60 ∧ p.user_id = some 2 :=
  invite_existing_user_idempotent inviteDB 60 1 2 inviteMeeting invitedUserRow
    { user_id := some 2, email := none, name := none, role := none }
    rfl rfl rfl (List.mem_singleton.mpr rfl) rfl rfl

/-- Meeting used by the C10 witness. -/
def emailMeeting : Meeting :=
  { id := 30, title := "m", type := .scheduled, status := .scheduled,
    is_open := false, host_id := 1, room_name := "room_30", start_time := 0,
    end_time := none }

/-- An email-only participant row already present for the C10 witness. -/
def emailRow : Participant :=
  { id := 31, meeting_id := 30, user_id := none, email := some "a@b.c",
    name := some "A", role := .attendee, status := .invited, joined_at := none,
    left_at := none }

/-- Store used by the C10 witness: the same email is already invited. -/
def emailInviteDB : DB :=
  { meetings := [emailMeeting], participants := [emailRow], messages := [],
    closedRooms := [], now := 3, nextId := 40 }

/-- The email-only invite spec used by the C10 witness. -/
def emailSpec : ParticipantSpec :=
  { user_id := none, email := some "a@b.c", name := some "A", role := none }

/-- C10 witness: re-inviting the same email at a concrete store inserts a
second row instead of returning the existing one. -/
theorem invite_by_email_witness :
    invite_participant emailInviteDB 30 1 emailSpec =
      (.ok (insertInvitee 30 40 emailSpec),
        { emailInviteDB with
            participants := emailInviteDB.participants ++ [insertInvitee 30 40 emailSpec],
            nextId := 41 }) :=
  invite_by_email_always_inserts emailInviteDB 30 1 emailMeeting emailSpec "a@b.c"
    rfl rfl rfl rfl

/-! ### C8 -/

/-- C8: every issued token carries `room_join`, `can_subscribe` and
`can_publish_data`; `can_publish` is cleared exactly when the meeting is a
webinar and the resolved role is `attendee` (so a host of the same webinar
keeps `can_publish`). -/
theorem generate_token_grants_characterization (db : DB) (mid uid : Nat)
    (nm : String) (m : Meeting) (tok : AccessTokenData)
    (hm : findMeeting db mid = some m)
    (htok : generate_token db mid uid nm = .ok tok) :
    tok.grants.room_join = true ∧ tok.grants.can_subscribe = true ∧
    tok.grants.can_publish_data = true ∧
    (tok.grants.can_publish = false ↔
      (m.type = .webinar ∧ resolvedRole db mid uid m = some .attendee)) := by
  unfold generate_token at htok
  cases hg : get_meeting db mid uid with
  | error e => rw [hg] at htok; cases htok
  | ok m0 =>
    have hm0 : m0 = m := by
      have h2 := get_meeting_ok db mid uid m0 hg
      rw [hm] at h2
      injection h2 with h2
      exact h2.symm
    subst hm0
    simp only [hg] at htok
    cases hr : resolvedRole db mid uid m0 with
    | none =>
      simp only [hr] at htok
      exact Except.noConfusion htok
    | some role =>
      simp only [hr] at htok
      injection htok with htok
      subst htok
      refine ⟨rfl, rfl, rfl, ?_⟩
      cases hmt : m0.type <;> cases role <;> simp

/-- Meeting used by the C8 witness. -/
def webinarMeeting : Meeting :=
  { id := 40, title := "w", type := .webinar, status := .active, is_open := false,
    host_id := 1, room_name := "room_40", start_time := 0, end_time := none }

/-- Attendee row of the C8 witness webinar. -/
def webinarAttendeeRow : Participant :=
  { id := 41, meeting_id := 40, user_id := some 2, email := none, name := none,
    role := .attendee, status := .accepted, joined_at := some 1, left_at := none }

/-- Store used by the C8 witness. -/
def webinarDB : DB :=
  { meetings := [webinarMeeting], participants := [webinarAttendeeRow],
    messages := [], closedRooms := [], now := 5, nextId := 50 }

/-- The token issued to the webinar attendee in the C8 witness. -/
def webinarAttendeeTok : AccessTokenData :=
  { identity := 2, name := "n",
    grants := { room_join := true, room := "room_40", can_publish := false,
                can_subscribe := true, can_publish_data := true } }

/-- C8 witness: the grant characterization applied to a concrete webinar
attendee token request. -/
theorem generate_token_grants_witness :
    webinarAttendeeTok.grants.room_join = true ∧
    webinarAttendeeTok.grants.can_subscribe = true ∧
    webinarAttendeeTok.grants.can_publish_data = true ∧
    (webinarAttendeeTok.grants.can_publish = false ↔
      (webinarMeeting.type = .webinar ∧
        resolvedRole webinarDB 40 2 webinarMeeting = some .attendee)) :=
  generate_token_grants_characterization webinarDB 40 2 "n" webinarMeeting
    webinarAttendeeTok rfl rfl

/-! ### C9 -/

/-- C9: a caller who is neither the host nor a participant of a non-open
meeting receives an `AuthorizationError` from the token, chat, participant
status and missed operations, with the store left unchanged (the
status-update case assumes the referenced participant resolves; an
unresolvable reference yields `NotFound` before the access check). -/
theorem non_participant_denied_on_closed_meeting (db : DB) (mid uid : Nat)
    (m : Meeting)
    (hm : findMeeting db mid = some m) (hopen : m.is_open = false)
    (hhost : m.host_id ≠ uid)
    (hpart : findParticipantByUser db mid (some uid) = none) :
    (∀ nm, generate_token db mid uid nm =
        .error (.Authorization "You are not invited to this meeting")) ∧
    (∀ nm c, send_chat_message db mid uid nm c =
        (.error (.Authorization "You are not invited to this meeting"), db)) ∧
    (get_chat_messages db mid uid =
        .error (.Authorization "You are not invited to this meeting")) ∧
    (∀ pref ns p, resolveParticipantRef db mid pref = some p →
        update_participant_status db mid pref uid ns =
          (.error (.Authorization "You are not invited to this meeting"), db)) ∧
    (∀ pid, mark_call_as_missed_endpoint db mid pid uid =
        (.error (.Authorization "You are not invited to this meeting"), db)) := by
  have hden := get_meeting_denied db mid uid m hm hopen hhost hpart
  refine ⟨?_, ?_, ?_, ?_, ?_⟩
  · intro nm
    unfold generate_token
    simp only [hden]
  · intro nm c
    unfold send_chat_message
    simp only [hden]
  · unfold get_chat_messages
    simp only [hden]
  · intro pref ns p hres
    unfold update_participant_status
    simp only [hres, hden]
  · intro pid
    unfold mark_call_as_missed_endpoint
    simp only [hden]

/-- Meeting used by the C9 witness: non-open, hosted by user 1. -/
def closedMeeting : Meeting :=
  { id := 50, title := "c", type := .scheduled, status := .active,
    is_open := false, host_id := 1, room_name := "room_50", start_time := 0,
    end_time := none }

/-- The only participant row of the C9 witness meeting (the host). -/
def closedHostRow : Participant :=
  { id := 51, meeting_id := 50, user_id := some 1, email := none, name := none,
    role := .host, status := .accepted, joined_at := none, left_at := none }

/-- Store used by the C9 witness; user 2 has no participant row. -/
def closedDB : DB :=
  { meetings := [closedMeeting], participants := [closedHostRow], messages := [],
    closedRooms := [], now := 2, nextId := 60 }

/-- C9 witness: the denial theorem applied to user 2 at a concrete
non-open meeting. -/
theorem non_participant_denied_witness :
    generate_token closedDB 50 2 "n" =
      .error (.Authorization "You are not invited to this meeting") ∧
    send_chat_message closedDB 50 2 "n" "hi" =
      (.error (.Authorization "You are not invited to this meeting"), closedDB) ∧
    get_chat_messages closedDB 50 2 =
      .error (.Authorization "You are not invited to this meeting") ∧
    update_participant_status closedDB 50 51 2 .accepted =
      (.error (.Authorization "You are not invited to this meeting"), closedDB) ∧
    mark_call_as_missed_endpoint closedDB 50 51 2 =
      (.error (.Authorization "You are not invited to this meeting"), closedDB) := by
  obtain ⟨h1, h2, h3, h4, h5⟩ :=
    non_participant_denied_on_closed_meeting closedDB 50 2 closedMeeting
      rfl rfl (by decide) rfl
  exact ⟨h1 "n", h2 "n" "hi", h3, h4 51 .accepted closedHostRow rfl, h5 51⟩

/-! ### C2 -/

/-- A meeting-row update through a function keeping the row id fixed moves
`findMeeting` to the updated row, for any state sharing the meetings
table. -/
theorem findMeeting_updateMeetingRow (db0 db : DB) (mid : Nat)
    (f : Meeting → Meeting) (hf : ∀ x, (f x).id = x.id) (m : Meeting)
    (hmeet : db0.meetings = db.meetings)
    (hm : findMeeting db mid = some m) :
    findMeeting (updateMeetingRow db0 mid f) mid = some (f m) := by
  unfold findMeeting at hm ⊢
  unfold updateMeetingRow
  simp only [hmeet]
  exact find?_update (fun x => x.id == mid) f
    (fun x hx => by simpa [hf x] using hx) db.meetings m hm

/-- `end_meeting` on a stored meeting that is neither completed nor
cancelled stores it back with status `completed` and `end_time = now`. -/
theorem end_meeting_sets_completed (db : DB) (mid : Nat) (m : Meeting)
    (hm : findMeeting db mid = some m)
    (hguard : (m.status == .completed || m.status == .cancelled) = false) :
    findMeeting (end_meeting db mid).2 mid =
      some { m with status := .completed, end_time := some db.now } := by
  unfold end_meeting
  simp only [hm, hguard, Bool.false_eq_true, if_false]
  exact findMeeting_updateMeetingRow _ db mid
    (fun x => { x with status := .completed, end_time := some db.now })
    (fun x => rfl) m
    (by by_cases h : (m.room_name != "") = true <;>
      simp [deleteChatMessages, closeRoom, h]) hm

/-- The Boolean auto-end decision of the evaluator, characterized as the
branching on meeting type, user-participant count and active set stated in
the specification. -/
theorem should_end_iff (db : DB) (mid : Nat) (m : Meeting) :
    ((if m.type == .instant then
        (userParticipantCount db mid == 2 &&
          decide ((activeParticipants db mid).length ≤ 1)) ||
          (activeParticipants db mid).length == 0
      else (activeParticipants db mid).length == 0) = true) ↔
      ((m.type = .instant ∧
          ((userParticipantCount db mid = 2 ∧ (activeParticipants db mid).length ≤ 1) ∨
            (activeParticipants db mid).length = 0)) ∨
        (m.type ≠ .instant ∧ (activeParticipants db mid).length = 0)) := by
  by_cases ht : m.type = .instant
  · have hb : (m.type == .instant) = true := by simp [ht]
    simp [hb, ht]
  · have hb : (m.type == .instant) = false := by simp [ht]
    simp [hb, ht]

/-- C2: `leave_meeting` runs the auto-termination evaluator on the state
with the leaver marked declined-and-left; and, on a non-completed,
non-cancelled meeting, the evaluator stores status `completed` exactly when:
for an instant meeting, the user-participant count is 2 and the active set
(status not declined, not missed, `left_at` null) has at most one member, or
the active set is empty; and for any other type, exactly when the active set
is empty. -/
theorem auto_end_decision_characterization (db : DB) (mid : Nat) (m : Meeting)
    (hm : findMeeting db mid = some m)
    (hnc : m.status ≠ .completed) (hnx : m.status ≠ .cancelled) :
    (∀ uid p, get_participant_by_user db mid uid = some p →
        (leave_meeting db mid uid).2 =
          check_and_end_meeting_if_needed
            (updateParticipantRow db p.id
              (fun q => { q with left_at := some db.now, status := .declined })) mid) ∧
    ((∃ m2, findMeeting (check_and_end_meeting_if_needed db mid) mid = some m2 ∧
        m2.status = .completed) ↔
      ((m.type = .instant ∧
          ((userParticipantCount db mid = 2 ∧ (activeParticipants db mid).length ≤ 1) ∨
            (activeParticipants db mid).length = 0)) ∨
        (m.type ≠ .instant ∧ (activeParticipants db mid).length = 0))) := by
  have hguard : (m.status == .completed || m.status == .cancelled) = false := by
    cases h : m.status
    · rfl
    · rfl
    · exact absurd h hnc
    · exact absurd h hnx
    · rfl
  constructor
  · intro uid p hp
    unfold leave_meeting
    simp only [hp]
  · have hchk : check_and_end_meeting_if_needed db mid =
        if ((if m.type == .instant then
              (userParticipantCount db mid == 2 &&
                decide ((activeParticipants db mid).length ≤ 1)) ||
                (activeParticipants db mid).length == 0
            else (activeParticipants db mid).length == 0) = true)
          then (end_meeting db mid).2 else db := by
      unfold check_and_end_meeting_if_needed
      simp only [hm, hguard, Bool.false_eq_true, if_false]
    rw [hchk]
    by_cases hdec : (if m.type == .instant then
        (userParticipantCount db mid == 2 &&
          decide ((activeParticipants db mid).length ≤ 1)) ||
          (activeParticipants db mid).length == 0
      else (activeParticipants db mid).length == 0) = true
    · rw [if_pos hdec]
      constructor
      · intro _
        exact (should_end_iff db mid m).mp hdec
      · intro _
        exact ⟨_, end_meeting_sets_completed db mid m hm hguard, rfl⟩
    · rw [if_neg hdec]
      constructor
      · rintro ⟨m2, hm2, hst⟩
        rw [hm] at hm2
        injection hm2 with hm2
        rw [← hm2] at hst
        exact absurd hst hnc
      · intro hR
        exact absurd ((should_end_iff db mid m).mpr hR) hdec

/-- Instant meeting used by the C2 witness. -/
def autoEndMeeting : Meeting :=
  { id := 70, title := "call", type := .instant, status := .active,
    is_open := false, host_id := 1, room_name := "room_70", start_time := 0,
    end_time := none }

/-- Host row of the C2 witness call, still active. -/
def autoEndHostRow : Participant :=
  { id := 71, meeting_id := 70, user_id := some 1, email := none, name := none,
    role := .host, status := .accepted, joined_at := none, left_at := none }

/-- Guest row of the C2 witness call, already left. -/
def autoEndGuestRow : Participant :=
  { id := 72, meeting_id := 70, user_id := some 2, email := none, name := none,
    role := .attendee, status := .declined, joined_at := some 1, left_at := some 4 }

/-- Store used by the C2 witness: a 1:1 instant call with one active
participant left. -/
def autoEndDB : DB :=
  { meetings := [autoEndMeeting], participants := [autoEndHostRow, autoEndGuestRow],
    messages := [], closedRooms := [], now := 5, nextId := 80 }

/-- C2 witness: the decision characterization applied at a concrete 1:1
instant call with exactly one active participant remaining — the evaluator
completes the meeting. -/
theorem auto_end_decision_witness :
    ∃ m2, findMeeting (check_and_end_meeting_if_needed autoEndDB 70) 70 = some m2 ∧
      m2.status = .completed :=
  ((auto_end_decision_characterization autoEndDB 70 autoEndMeeting rfl
      (by decide) (by decide)).2).mpr
    (Or.inl ⟨rfl, Or.inl ⟨rfl, by decide⟩⟩)

/-! ### C3 -/

/-- A participant-row update that keeps `meeting_id` and `user_id` fixed
keeps the user-participant count. -/
theorem userParticipantCount_update (db : DB) (pid mid : Nat)
    (f : Participant → Participant)
    (hmf : ∀ x, (f x).meeting_id = x.meeting_id)
    (huf : ∀ x, (f x).user_id = x.user_id) :
    userParticipantCount (updateParticipantRow db pid f) mid
      = userParticipantCount db mid := by
  unfold userParticipantCount participantsOf updateParticipantRow
  rw [List.filter_filter, List.filter_filter]
  exact length_filter_update _ f _ (fun x => by simp [hmf x, huf x]) db.participants

/-- After setting the row found by id to `missed`, the meeting has a missed
participant. -/
theorem any_missed_after_update (db : DB) (mid pid : Nat) (p : Participant)
    (hp : findParticipantById db pid mid = some p) :
    ((participantsOf (updateParticipantRow db pid
        (fun q => { q with status := PStatus.missed })) mid).any
      (fun q => q.status == .missed)) = true := by
  have hmem := List.mem_of_find?_eq_some hp
  have hpred := List.find?_some hp
  simp only [Bool.and_eq_true, beq_iff_eq] at hpred
  unfold participantsOf updateParticipantRow
  rw [List.any_eq_true]
  refine ⟨{ p with status := .missed }, ?_, by simp⟩
  rw [List.mem_filter]
  constructor
  · have hval : ({ p with status := .missed } : Participant) =
        (fun q => if q.id == pid then { q with status := PStatus.missed } else q) p := by
      simp [hpred.1]
    rw [hval]
    exact List.mem_map_of_mem _ hmem
  · simp [hpred.2]

/-- C3: on a non-terminal instant meeting with exactly 2 user-participants,
marking a still-`invited` participant missed sets the row to `missed` and
terminates the meeting as `not_answered` with `end_time=now`, purging the
chat and closing the media room. -/
theorem mark_missed_terminates_one_on_one_call (db : DB) (mid pid : Nat)
    (m : Meeting) (p : Participant)
    (hm : findMeeting db mid = some m)
    (htype : m.type = .instant)
    (hs1 : m.status ≠ .completed) (hs2 : m.status ≠ .cancelled)
    (hs3 : m.status ≠ .not_answered)
    (hroom : m.room_name ≠ "")
    (hp : findParticipantById db pid mid = some p)
    (hinv : p.status = .invited)
    (hcount : userParticipantCount db mid = 2) :
    (mark_call_as_missed db mid pid).1 = .ok { p with status := .missed } ∧
    findMeeting (mark_call_as_missed db mid pid).2 mid =
      some { m with status := .not_answered, end_time := some db.now } ∧
    (mark_call_as_missed db mid pid).2.messages.filter
      (fun c => c.meeting_id == mid) = [] ∧
    m.room_name ∈ (mark_call_as_missed db mid pid).2.closedRooms := by
  have hb : (p.status != .invited) = false := by simp [hinv]
  have hcond : (m.type == .instant && m.status != .completed &&
      m.status != .cancelled && m.status != .not_answered) = true := by
    simp [htype, bne_iff_ne, hs1, hs2, hs3]
  have hcnt : (userParticipantCount (updateParticipantRow db pid
      (fun q => { q with status := PStatus.missed })) mid == 2) = true := by
    rw [userParticipantCount_update db pid mid
      (fun q => { q with status := PStatus.missed }) (fun x => rfl) (fun x => rfl), hcount]
    rfl
  have hany := any_missed_after_update db mid pid p hp
  have hroomb : (m.room_name != "") = true := by simp [bne_iff_ne, hroom]
  have hred : mark_call_as_missed db mid pid =
      (.ok { p with status := .missed },
        mark_meeting_as_not_answered
          (updateParticipantRow db pid (fun q => { q with status := PStatus.missed }))
          mid m) := by
    unfold mark_call_as_missed
    simp only [hm, hp, hb, Bool.false_eq_true, if_false, hcond, hcnt, hany,
      eq_self_iff_true, if_true]
  rw [hred]
  refine ⟨rfl, ?_, ?_, ?_⟩
  · unfold mark_meeting_as_not_answered
    rw [if_pos hroomb]
    exact findMeeting_updateMeetingRow _ db mid
      (fun x => { x with status := .not_answered, end_time := some db.now })
      (fun x => rfl) m rfl hm
  · unfold mark_meeting_as_not_answered
    rw [if_pos hroomb]
    exact filter_bne_filter_beq_nil (fun c => c.meeting_id) mid db.messages
  · unfold mark_meeting_as_not_answered
    rw [if_pos hroomb]
    exact List.mem_cons_self _ _

/-- Instant meeting used by the C3 witness. -/
def missWitMeeting : Meeting :=
  { id := 80, title := "call", type := .instant, status := .active,
    is_open := false, host_id := 1, room_name := "room_80", start_time := 0,
    end_time := none }

/-- Host row of the C3 witness call. -/
def missWitHostRow : Participant :=
  { id := 81, meeting_id := 80, user_id := some 1, email := none, name := none,
    role := .host, status := .accepted, joined_at := none, left_at := none }

/-- Invited guest row of the C3 witness call. -/
def missWitInviteeRow : Participant :=
  { id := 82, meeting_id := 80, user_id := some 2, email := none, name := none,
    role := .attendee, status := .invited, joined_at := none, left_at := none }

/-- Store used by the C3 witness, with one chat message to be purged. -/
def missWitDB : DB :=
  { meetings := [missWitMeeting],
    participants := [missWitHostRow, missWitInviteeRow],
    messages := [{ id := 83, meeting_id := 80, sender_id := 1,
                   sender_name := "h", content := "hi" }],
    closedRooms := [], now := 9, nextId := 90 }

/-- C3 witness: the termination theorem applied at a concrete 1:1 instant
call whose invitee never answered. -/
theorem mark_missed_terminates_witness :
    (mark_call_as_missed missWitDB 80 82).1 =
      .ok { missWitInviteeRow with status := .missed } ∧
    findMeeting (mark_call_as_missed missWitDB 80 82).2 80 =
      some { missWitMeeting with status := .not_answered, end_time := some 9 } ∧
    (mark_call_as_missed missWitDB 80 82).2.messages.filter
      (fun c => c.meeting_id == 80) = [] ∧
    missWitMeeting.room_name ∈ (mark_call_as_missed missWitDB 80 82).2.closedRooms :=
  mark_missed_terminates_one_on_one_call missWitDB 80 82 missWitMeeting
    missWitInviteeRow rfl rfl (by decide) (by decide) (by decide) (by decide)
    rfl rfl rfl

/-! ### C6 -/

/-- Every row produced by `assignIds` carries the target meeting id and the
defaulted role of some spec in the batch. -/
theorem assignIds_mem (mid : Nat) :
    ∀ (specs : List ParticipantSpec) (n : Nat) (q : Participant),
      q ∈ assignIds n mid specs →
      ∃ sp ∈ specs, q.role = sp.role.getD .attendee ∧ q.meeting_id = mid := by
  intro specs
  induction specs with
  | nil =>
    intro n q h
    cases h
  | cons sp rest ih =>
    intro n q h
    rcases List.mem_cons.mp h with rfl | ht
    · exact ⟨sp, List.mem_cons_self _ _, rfl, rfl⟩
    · obtain ⟨sp2, hsp2, h1, h2⟩ := ih (n + 1) q ht
      exact ⟨sp2, List.mem_cons_of_mem _ hsp2, h1, h2⟩

/-- Insert outcomes of the C6 counterexample run: the meeting insert
succeeds, the host-participant insert fails. -/
def createFailOutcomes : InsertOutcomes :=
  { meetingInsertOk := true, hostInsertOk := false, inviteesInsertOk := true }

/-- The empty store of the C6 counterexample. -/
def emptyDB : DB :=
  { meetings := [], participants := [], messages := [], closedRooms := [],
    now := 1, nextId := 0 }

/-- The meeting row created in the C6 counterexample run. -/
def orphanMeeting : Meeting :=
  { id := 0, title := "m", type := .instant, status := .scheduled,
    is_open := false, host_id := 1, room_name := "room_1", start_time := 0,
    end_time := none }

/-- C6: counterexample — with the host-participant insert failing (an error
the code swallows), `create_meeting` still reports success, and the store
ends with the meeting row present and no participant row at all: the
meeting and its host participant are not created atomically, and a meeting
can exist with no host-role participant. -/
theorem create_meeting_host_insert_failure :
    (create_meeting emptyDB createFailOutcomes "m" 1 0 .instant false []).1 =
      .ok (orphanMeeting, []) ∧
    (create_meeting emptyDB createFailOutcomes "m" 1 0 .instant false []).2.meetings =
      [orphanMeeting] ∧
    (create_meeting emptyDB createFailOutcomes "m" 1 0 .instant false []).2.participants
      = [] :=
  ⟨rfl, rfl, rfl⟩

/-- C6 (amended): the meeting insert and the host-participant insert are two
separate non-atomic store calls; when the meeting insert succeeds the
create reports success with the new `scheduled` meeting, and the new
meeting has exactly one host-role participant row when the host insert
succeeds and none when it fails (the failure being swallowed). -/
theorem create_meeting_host_row_iff_insert_ok (db : DB) (oc : InsertOutcomes)
    (title : String) (hid st : Nat) (ty : MeetingType) (op : Bool)
    (specs : List ParticipantSpec)
    (hok : oc.meetingInsertOk = true)
    (hfresh : ∀ p ∈ db.participants, p.meeting_id ≠ db.nextId)
    (hroles : ∀ sp ∈ specs, sp.role.getD .attendee ≠ .host) :
    (∃ mres parts,
        (create_meeting db oc title hid st ty op specs).1 = .ok (mres, parts) ∧
        mres.id = db.nextId ∧ mres.status = .scheduled) ∧
    ((create_meeting db oc title hid st ty op specs).2.participants.filter
        (fun p => p.meeting_id == db.nextId && p.role == .host)).length
      = (if oc.hostInsertOk then 1 else 0) := by
  have hdbnil : db.participants.filter
      (fun p => p.meeting_id == db.nextId && p.role == .host) = [] := by
    rw [List.filter_eq_nil_iff]
    intro p hp
    simp [Bool.and_eq_true, beq_iff_eq, hfresh p hp]
  have hrowsnil : ∀ n, (assignIds n db.nextId specs).filter
      (fun p => p.meeting_id == db.nextId && p.role == .host) = [] := by
    intro n
    rw [List.filter_eq_nil_iff]
    intro q hq hcontra
    obtain ⟨sp, hsp, hrole, hmid⟩ := assignIds_mem db.nextId specs n q hq
    simp only [Bool.and_eq_true, beq_iff_eq] at hcontra
    apply hroles sp hsp
    rw [← hrole]
    exact hcontra.2
  obtain ⟨mok, hostOk, invOk⟩ := oc
  simp only at hok
  subst hok
  unfold create_meeting
  simp only [Bool.not_true, Bool.false_eq_true, if_false]
  cases hostOk <;> cases hgate : (specs.isEmpty || !invOk) <;>
    refine ⟨⟨_, _, rfl, rfl, rfl⟩, ?_⟩ <;>
    simp [List.filter_append, hdbnil, hrowsnil, List.filter_cons]

/-- Store used by the C6 witness (one unrelated participant row). -/
def createWitDB : DB :=
  { meetings := [], participants := [], messages := [], closedRooms := [],
    now := 2, nextId := 5 }

/-- Insert outcomes where every insert succeeds, used by the C6 witness. -/
def allOkOutcomes : InsertOutcomes :=
  { meetingInsertOk := true, hostInsertOk := true, inviteesInsertOk := true }

/-- One attendee invitee spec used by the C6 witness. -/
def witSpec : ParticipantSpec :=
  { user_id := some 3, email := none, name := none, role := none }

/-- C6 witness: the amended theorem applied at a concrete successful create
with one invitee — the new meeting carries exactly one host row. -/
theorem create_meeting_host_row_witness :
    (∃ mres parts,
        (create_meeting createWitDB allOkOutcomes "t" 1 0 .scheduled false [witSpec]).1 =
          .ok (mres, parts) ∧ mres.id = 5 ∧ mres.status = .scheduled) ∧
    ((create_meeting createWitDB allOkOutcomes "t" 1 0 .scheduled false
        [witSpec]).2.participants.filter
        (fun p => p.meeting_id == 5 && p.role == .host)).length = 1 :=
  create_meeting_host_row_iff_insert_ok createWitDB allOkOutcomes "t" 1 0 .scheduled
    false [witSpec] rfl (by simp [createWitDB]) (by simp [witSpec])

end Vemeego
